import Mathlib

/-!
  Verification of the stellar evolution and binary mass-transfer engine of
  the Solar-Simu repository (src/app.js), shallowly embedded over the real
  numbers. Pure power-law relations become functions on the reals; the
  mutable Star and simulation records become explicit state-passing
  functions. JavaScript numbers are modelled as exact reals; Math.pow,
  Math.cbrt and Math.log become Real.rpow and Real.log (the Roche mass
  ratio is clamped positive before the cube root, so rpow agrees with
  cbrt on every reachable argument).
-/

namespace StellarSim

noncomputable section

/-- Unit constant YEAR from app.js (abstract year unit). -/
def YEAR : ℝ := 1

/-- Unit constant MYR from app.js (one million years). -/
def MYR : ℝ := 1e6 * YEAR

/-- Unit constant GYR from app.js (one billion years). -/
def GYR : ℝ := 1e9 * YEAR

/-- Fate threshold WD_MAX from app.js: upper mass bound to end as a white dwarf. -/
def WD_MAX : ℝ := 8

/-- Fate threshold NS_MAX from app.js: upper mass bound to end as a neutron star. -/
def NS_MAX : ℝ := 20

/-- The clamp utility of app.js: Math.max(min, Math.min(max, v)). -/
def clamp (v lo hi : ℝ) : ℝ := max lo (min hi v)

/-- msLifetimeYears of app.js: main-sequence lifetime, 10 Gyr times mass to the power -2.5. -/
def msLifetimeYears (mass : ℝ) : ℝ := 10 * GYR * mass ^ (-2.5 : ℝ)

/-- luminosityLsun of app.js: clamped mass to the 3.5 power. -/
def luminosityLsun (mass : ℝ) : ℝ := clamp (mass ^ (3.5 : ℝ)) 0.001 1e6

/-- radiusRsun of app.js: clamped mass to the 0.8 power. -/
def radiusRsun (mass : ℝ) : ℝ := clamp (mass ^ (0.8 : ℝ)) 0.05 2000

/-- temperatureK of app.js: clamped effective temperature from luminosity and radius. -/
def temperatureK (l r : ℝ) : ℝ := clamp (5772 * (l / r ^ 2) ^ (0.25 : ℝ)) 2000 60000

/-- fateForMass of app.js: terminal fate decided by the two thresholds. -/
def fateForMass (mass : ℝ) : String :=
  if mass < WD_MAX then "White Dwarf"
  else if mass < NS_MAX then "Neutron Star"
  else "Black Hole"

/-- The Star record of app.js (the fields produced by makeStar). -/
structure Star where
  massInitial : ℝ
  massCurrent : ℝ
  age : ℝ
  tProtostar : ℝ
  tMS : ℝ
  tGiant : ℝ
  tTotal : ℝ
  ended : Bool
  fate : String
  collapseAnimating : Bool
  collapseProgress : ℝ
  justEnded : Bool
  hadSupernova : Bool

/-- makeStar of app.js: clamp the requested mass to the range 0.1 to 50 and
derive every life-cycle duration and the initial fate from the clamped mass. -/
def makeStar (initialMass : ℝ) : Star :=
  let mass := clamp initialMass 0.1 50
  let tMS := msLifetimeYears mass
  let tProtostar := tMS * 0.01
  let tGiant := tMS * 0.1
  let total := tProtostar + tMS + tGiant
  { massInitial := mass
    massCurrent := mass
    age := 0
    tProtostar := tProtostar
    tMS := tMS
    tGiant := tGiant
    tTotal := total
    ended := false
    fate := fateForMass mass
    collapseAnimating := false
    collapseProgress := 0
    justEnded := false
    hadSupernova := false }

/-- stageForStar of app.js: the displayed life-cycle stage of a star. -/
def stageForStar (star : Star) : String :=
  if star.ended then star.fate
  else if star.age < star.tProtostar then "Protostar"
  else if star.age < star.tProtostar + star.tMS then "Main Sequence"
  else if star.age < star.tTotal then
    (if star.massInitial ≥ 8 then "Supergiant" else "Giant")
  else star.fate

/-- The clamped Eggleton mass ratio of rocheLobeRadiusAU in app.js. -/
def rocheQ (mDonor mAccretor : ℝ) : ℝ := clamp (mDonor / mAccretor) 1e-3 1e3

/-- rocheLobeRadiusAU of app.js: the Eggleton approximation for the
Roche-lobe radius in astronomical units. -/
def rocheLobeRadiusAU (mDonor mAccretor separationAU : ℝ) : ℝ :=
  let q := rocheQ mDonor mAccretor
  let q13 := q ^ ((1 : ℝ) / 3)
  let q23 := q13 * q13
  let rlOverA := 0.49 * q23 / (0.6 * q23 + Real.log (1 + q13))
  rlOverA * separationAU

/-- stellarRadiusAU of app.js: convert solar radii to astronomical units. -/
def stellarRadiusAU (Rsun : ℝ) : ℝ := Rsun / 215

/-- The overfill test of doMassTransfer in app.js: a star's physical radius
(from its current mass) exceeds its own Roche-lobe radius. -/
def overfillP (s other : Star) (sep : ℝ) : Prop :=
  stellarRadiusAU (radiusRsun s.massCurrent) > rocheLobeRadiusAU s.massCurrent other.massCurrent sep

instance (s other : Star) (sep : ℝ) : Decidable (overfillP s other sep) :=
  inferInstanceAs (Decidable
    (rocheLobeRadiusAU s.massCurrent other.massCurrent sep <
      stellarRadiusAU (radiusRsun s.massCurrent)))

/-- The resetStarTimes closure of transferMass in app.js: recompute every
phase duration from the star's current mass, leaving all other fields. -/
def resetStarTimes (star : Star) : Star :=
  let tMS := msLifetimeYears star.massCurrent
  { star with
      tProtostar := tMS * 0.01
      tMS := tMS
      tGiant := tMS * 0.1
      tTotal := tMS * 0.01 + tMS + tMS * 0.1 }

/-- transferMass of app.js: move dm solar masses from donor to accretor,
capped so the donor never drops below 0.1; on a nonzero transfer both fates
and both sets of phase durations are recomputed from the new masses. -/
def transferMass (donor accretor : Star) (dm : ℝ) : Star × Star :=
  let maxTransfer := min dm (donor.massCurrent - 0.1)
  if maxTransfer ≤ 0 then (donor, accretor)
  else
    let donor1 := { donor with massCurrent := donor.massCurrent - maxTransfer }
    let accretor1 := { accretor with massCurrent := accretor.massCurrent + maxTransfer }
    let donor2 := { donor1 with fate := fateForMass donor1.massCurrent }
    let accretor2 := { accretor1 with fate := fateForMass accretor1.massCurrent }
    (resetStarTimes donor2, resetStarTimes accretor2)

/-- The simulation state of app.js that the engine operations touch. -/
structure SimState where
  star1 : Star
  star2 : Star
  binary : Bool
  separationAU : ℝ
  transferRatePerYear : ℝ
  speed : ℝ
  t : ℝ

/-- doMassTransfer of app.js: in binary mode, while neither star has ended,
transfer from the single overfilling star to the other; when both or
neither overfill, or a star has ended, do nothing. -/
def doMassTransfer (st : SimState) (dtYears : ℝ) : SimState :=
  if st.binary then
    if st.star1.ended = false ∧ st.star2.ended = false then
      if overfillP st.star1 st.star2 st.separationAU ∧
          ¬ overfillP st.star2 st.star1 st.separationAU then
        { st with
            star1 := (transferMass st.star1 st.star2 (st.transferRatePerYear * dtYears)).1
            star2 := (transferMass st.star1 st.star2 (st.transferRatePerYear * dtYears)).2 }
      else if overfillP st.star2 st.star1 st.separationAU ∧
          ¬ overfillP st.star1 st.star2 st.separationAU then
        { st with
            star2 := (transferMass st.star2 st.star1 (st.transferRatePerYear * dtYears)).1
            star1 := (transferMass st.star2 st.star1 (st.transferRatePerYear * dtYears)).2 }
      else st
    else st
  else st

/-- The per-star body of the advanceTime loop in app.js: age a live star and
perform the end-of-life transition when the age reaches the total lifetime;
for an ended star, advance the wall-clock collapse animation. -/
def advanceStarStep (star : Star) (dtYears dtMs : ℝ) : Star :=
  if !star.ended then
    let aged := { star with age := star.age + dtYears }
    if aged.age ≥ aged.tTotal then
      { aged with
          age := aged.tTotal
          ended := true
          collapseAnimating := true
          collapseProgress := 0
          justEnded := true }
    else aged
  else if star.collapseAnimating then
    let p := star.collapseProgress + dtMs / 2000
    if p ≥ 1 then { star with collapseProgress := 1, collapseAnimating := false }
    else { star with collapseProgress := p }
  else star

/-- The state-mutating tail of drawStarAtWorld in app.js: the one-shot
justEnded handshake run by the draw pass that advanceTime triggers through
updateUI; it marks supernova eligibility once for massive stars and clears
the justEnded flag. -/
def drawStarFlagPass (star : Star) : Star :=
  if star.justEnded then
    let star1 :=
      if star.massInitial ≥ 8 ∧ star.hadSupernova = false then
        { star with hadSupernova := true }
      else star
    { star1 with justEnded := false }
  else star

/-- setSimulationAge of app.js: assign the scrubbed age, clamped to each
star's own lifetime, to the primary star and, in binary mode, the secondary. -/
def setSimulationAge (st : SimState) (ageYears : ℝ) : SimState :=
  let st1 := { st with star1 := { st.star1 with age := clamp ageYears 0 st.star1.tTotal } }
  if st1.binary then
    { st1 with star2 := { st1.star2 with age := clamp ageYears 0 st1.star2.tTotal } }
  else st1

/-- The dtYears computation of tick in app.js: auto-scale compresses the
primary star's lifetime into 60 wall-clock seconds; manual mode scales the
frame delta by the speed multiplier times ten million. -/
def tickDtYears (st : SimState) (autoScale : Bool) (dtMs : ℝ) : ℝ :=
  let lifetime := st.star1.tTotal
  if autoScale then
    let secondsForLifetime : ℝ := 60
    let yearsPerSecond := lifetime / secondsForLifetime
    (dtMs / 1000) * yearsPerSecond
  else
    (dtMs / 1000) * st.speed * 1e7

/-- The separation input handler of app.js: clamp to the range 0.01 to 10. -/
def applySeparation (v : ℝ) : ℝ := clamp v 0.01 10

/-- The transfer-rate input handler of app.js: clamp to the range 0 to 0.2
solar masses per million years, converted to a per-year rate. -/
def applyTransferRate (v : ℝ) : ℝ := clamp v 0 0.2 / MYR

/-- The initial simulation state of app.js (state literal at the top of the file). -/
def initState : SimState :=
  { star1 := makeStar 1
    star2 := makeStar 0.8
    binary := false
    separationAU := 0.5
    transferRatePerYear := 0.01 / MYR
    speed := 10
    t := 0 }

/-- A concrete massive star record used to exercise Roche-lobe overflow. -/
def bigStar : Star :=
  { massInitial := 1000000
    massCurrent := 1000000
    age := 0
    tProtostar := 1
    tMS := 1
    tGiant := 1
    tTotal := 3
    ended := false
    fate := "Black Hole"
    collapseAnimating := false
    collapseProgress := 0
    justEnded := false
    hadSupernova := false }

/-- A concrete solar-mass star record used to exercise Roche-lobe overflow. -/
def smallStar : Star :=
  { massInitial := 1
    massCurrent := 1
    age := 0
    tProtostar := 1
    tMS := 1
    tGiant := 1
    tTotal := 3
    ended := false
    fate := "White Dwarf"
    collapseAnimating := false
    collapseProgress := 0
    justEnded := false
    hadSupernova := false }

/-- A concrete binary state in which exactly the first star overfills its
Roche lobe. -/
def rlofState : SimState :=
  { star1 := bigStar
    star2 := smallStar
    binary := true
    separationAU := 1
    transferRatePerYear := 1
    speed := 10
    t := 0 }

/-! ## Helper lemmas -/

theorem le_clamp (v lo hi : ℝ) : lo ≤ clamp v lo hi := le_max_left _ _

theorem clamp_le_of_le (v : ℝ) {lo hi : ℝ} (h : lo ≤ hi) : clamp v lo hi ≤ hi :=
  max_le h (min_le_left _ _)

theorem clamp_eq_of_mem {v lo hi : ℝ} (h1 : lo ≤ v) (h2 : v ≤ hi) : clamp v lo hi = v := by
  unfold clamp
  rw [min_eq_right h2, max_eq_right h1]

theorem clamp_eq_hi {v lo hi : ℝ} (h1 : hi ≤ v) (h2 : lo ≤ hi) : clamp v lo hi = hi := by
  unfold clamp
  rw [min_eq_left h1, max_eq_right h2]

theorem msLifetimeYears_one : msLifetimeYears 1 = 1e10 := by
  unfold msLifetimeYears GYR YEAR
  rw [Real.one_rpow]
  norm_num

theorem makeStar_one_massCurrent : (makeStar 1).massCurrent = 1 := by
  simp only [makeStar]
  exact clamp_eq_of_mem (by norm_num) (by norm_num)

theorem makeStar_one_tMS : (makeStar 1).tMS = 1e10 := by
  simp only [makeStar]
  rw [clamp_eq_of_mem (by norm_num) (by norm_num), msLifetimeYears_one]

theorem makeStar_one_tProtostar : (makeStar 1).tProtostar = 1e8 := by
  simp only [makeStar]
  rw [clamp_eq_of_mem (by norm_num) (by norm_num), msLifetimeYears_one]
  norm_num

theorem makeStar_one_tTotal : (makeStar 1).tTotal = 1.11e10 := by
  simp only [makeStar]
  rw [clamp_eq_of_mem (by norm_num) (by norm_num), msLifetimeYears_one]
  norm_num

/-! ## Claim theorems -/

/-- Claim C4: for every mass in the range 0.1 to 50, a star built by
makeStar satisfies tTotal = tProtostar + tMS + tGiant exactly, with
tProtostar equal to one percent and tGiant to ten percent of tMS, and the
same relations hold after every recomputation of the phase durations by
resetStarTimes (the recomputation triggered by any mass change). -/
theorem star_time_relations (m : ℝ) (_h1 : 0.1 ≤ m) (_h2 : m ≤ 50) (s : Star) :
    (makeStar m).tTotal = (makeStar m).tProtostar + (makeStar m).tMS + (makeStar m).tGiant ∧
    (makeStar m).tProtostar = 0.01 * (makeStar m).tMS ∧
    (makeStar m).tGiant = 0.10 * (makeStar m).tMS ∧
    (resetStarTimes s).tTotal =
      (resetStarTimes s).tProtostar + (resetStarTimes s).tMS + (resetStarTimes s).tGiant ∧
    (resetStarTimes s).tProtostar = 0.01 * (resetStarTimes s).tMS ∧
    (resetStarTimes s).tGiant = 0.10 * (resetStarTimes s).tMS := by
  refine ⟨?_, ?_, ?_, ?_, ?_, ?_⟩ <;> simp only [makeStar, resetStarTimes] <;> ring

/-- Witness for C4 at mass one and a concrete star record. -/
theorem star_time_relations_witness :
    (makeStar 1).tTotal = (makeStar 1).tProtostar + (makeStar 1).tMS + (makeStar 1).tGiant ∧
    (makeStar 1).tProtostar = 0.01 * (makeStar 1).tMS ∧
    (makeStar 1).tGiant = 0.10 * (makeStar 1).tMS ∧
    (resetStarTimes smallStar).tTotal =
      (resetStarTimes smallStar).tProtostar + (resetStarTimes smallStar).tMS +
        (resetStarTimes smallStar).tGiant ∧
    (resetStarTimes smallStar).tProtostar = 0.01 * (resetStarTimes smallStar).tMS ∧
    (resetStarTimes smallStar).tGiant = 0.10 * (resetStarTimes smallStar).tMS :=
  star_time_relations 1 (by norm_num) (by norm_num) smallStar

/-- Claim C5: fateForMass returns White Dwarf exactly below eight solar
masses, Neutron Star from eight up to (but excluding) twenty, Black Hole
from twenty up, and takes the stated values at 7.99, 8, 19.99 and 20. -/
theorem fate_thresholds (m : ℝ) :
    (fateForMass m = "White Dwarf" ↔ m < 8) ∧
    (fateForMass m = "Neutron Star" ↔ 8 ≤ m ∧ m < 20) ∧
    (fateForMass m = "Black Hole" ↔ 20 ≤ m) ∧
    fateForMass 7.99 = "White Dwarf" ∧
    fateForMass 8 = "Neutron Star" ∧
    fateForMass 19.99 = "Neutron Star" ∧
    fateForMass 20 = "Black Hole" := by
  have hWN : ("White Dwarf" : String) ≠ "Neutron Star" := by decide
  have hWB : ("White Dwarf" : String) ≠ "Black Hole" := by decide
  have hNB : ("Neutron Star" : String) ≠ "Black Hole" := by decide
  refine ⟨?_, ?_, ?_, ?_, ?_, ?_, ?_⟩ <;>
    · unfold fateForMass WD_MAX NS_MAX
      split_ifs with h1 h2 <;> simp_all <;> linarith

/-- Claim C8: the tick clock of app.js turns a wall-clock millisecond delta
into simulated years as dtMs over a thousand times the current primary
star's total lifetime over sixty in auto-scale mode, and as dtMs over a
thousand times the speed multiplier times ten million in manual mode. -/
theorem tick_dtYears_policies (st : SimState) (dtMs : ℝ) :
    tickDtYears st true dtMs = (dtMs / 1000) * (st.star1.tTotal / 60) ∧
    tickDtYears st false dtMs = (dtMs / 1000) * st.speed * 1e7 :=
  ⟨rfl, rfl⟩

/-- Claim C9: every external numeric input is clamped at entry: the
separation handler yields a value in 0.01 to 10, the transfer-rate handler
a per-year rate between zero and 0.2 per million years, makeStar a mass in
0.1 to 50 (with the initial mass equal to the current mass), and the
Roche-lobe mass ratio lands in 1e-3 to 1e3, which keeps the logarithm
argument above one and the Eggleton denominator strictly positive, so
every core formula is total on what it receives. -/
theorem input_clamping (v w m md ma : ℝ) :
    0.01 ≤ applySeparation v ∧ applySeparation v ≤ 10 ∧
    0 ≤ applyTransferRate w ∧ applyTransferRate w ≤ 0.2 / MYR ∧
    0.1 ≤ (makeStar m).massCurrent ∧ (makeStar m).massCurrent ≤ 50 ∧
    (makeStar m).massInitial = (makeStar m).massCurrent ∧
    1e-3 ≤ rocheQ md ma ∧ rocheQ md ma ≤ 1e3 ∧
    1 < 1 + rocheQ md ma ^ ((1 : ℝ) / 3) ∧
    0 < 0.6 * (rocheQ md ma ^ ((1 : ℝ) / 3) * rocheQ md ma ^ ((1 : ℝ) / 3)) +
        Real.log (1 + rocheQ md ma ^ ((1 : ℝ) / 3)) := by
  have hq1 : (1e-3 : ℝ) ≤ rocheQ md ma := le_clamp _ _ _
  have hq0 : (0 : ℝ) < rocheQ md ma := lt_of_lt_of_le (by norm_num) hq1
  have hq13 : (0 : ℝ) < rocheQ md ma ^ ((1 : ℝ) / 3) := Real.rpow_pos_of_pos hq0 _
  have hlog : (0 : ℝ) < Real.log (1 + rocheQ md ma ^ ((1 : ℝ) / 3)) :=
    Real.log_pos (by linarith)
  refine ⟨le_clamp _ _ _, clamp_le_of_le _ (by norm_num),
    ?_, ?_, ?_, ?_, ?_, hq1, clamp_le_of_le _ (by norm_num), by linarith, by nlinarith⟩
  · exact div_nonneg (le_clamp _ _ _) (by unfold MYR YEAR; norm_num)
  · unfold applyTransferRate
    gcongr
    · unfold MYR YEAR; norm_num
    · exact clamp_le_of_le _ (by norm_num)
  · simpa only [makeStar] using le_clamp m 0.1 50
  · simpa only [makeStar] using clamp_le_of_le m (show (0.1 : ℝ) ≤ 50 by norm_num)
  · simp only [makeStar]

theorem flagPass_age (u : Star) : (drawStarFlagPass u).age = u.age := by
  unfold drawStarFlagPass
  split_ifs <;> rfl

theorem flagPass_ended (u : Star) : (drawStarFlagPass u).ended = u.ended := by
  unfold drawStarFlagPass
  split_ifs <;> rfl

theorem flagPass_justEnded (u : Star) : (drawStarFlagPass u).justEnded = false := by
  unfold drawStarFlagPass
  split_ifs with h1 h2 <;> simp_all

theorem advance_on_ended (u : Star) (h : u.ended = true) (d m : ℝ) :
    (advanceStarStep u d m).age = u.age ∧
    (advanceStarStep u d m).justEnded = u.justEnded ∧
    (advanceStarStep u d m).ended = true := by
  simp only [advanceStarStep, h]
  norm_num
  split_ifs <;> simp [h]

/-- Claim C2: a live star advanced past the rest of its lifetime in one
step ends up with age exactly equal to tTotal (never overshooting), with
ended, justEnded and collapseAnimating set and collapseProgress reset to
zero; after the draw pass that advanceTime itself triggers consumes the
one-shot flag, a further advance call leaves the age unchanged and the
justEnded flag false. -/
theorem advance_end_of_life (star : Star) (dt dtMs dt2 dtMs2 : ℝ)
    (h1 : star.ended = false) (h2 : star.tTotal - star.age ≤ dt) :
    (advanceStarStep star dt dtMs).age = star.tTotal ∧
    (advanceStarStep star dt dtMs).ended = true ∧
    (advanceStarStep star dt dtMs).justEnded = true ∧
    (advanceStarStep star dt dtMs).collapseAnimating = true ∧
    (advanceStarStep star dt dtMs).collapseProgress = 0 ∧
    (advanceStarStep (drawStarFlagPass (advanceStarStep star dt dtMs)) dt2 dtMs2).age
      = star.tTotal ∧
    (advanceStarStep (drawStarFlagPass (advanceStarStep star dt dtMs)) dt2 dtMs2).justEnded
      = false := by
  have h3 : star.tTotal ≤ star.age + dt := by linarith
  have e1 : advanceStarStep star dt dtMs =
      { star with
        age := star.tTotal
        ended := true
        collapseAnimating := true
        collapseProgress := 0
        justEnded := true } := by
    unfold advanceStarStep
    rw [h1]
    simp [h3]
  have h4 : (drawStarFlagPass (advanceStarStep star dt dtMs)).ended = true := by
    rw [flagPass_ended, e1]
  refine ⟨by rw [e1], by rw [e1], by rw [e1], by rw [e1], by rw [e1], ?_, ?_⟩
  · rw [(advance_on_ended _ h4 dt2 dtMs2).1, flagPass_age, e1]
  · rw [(advance_on_ended _ h4 dt2 dtMs2).2.1, flagPass_justEnded]

/-- Witness for C2: a solar-mass star advanced by twenty billion years. -/
theorem advance_end_of_life_witness :
    (advanceStarStep (makeStar 1) 2e10 0).age = (makeStar 1).tTotal ∧
    (advanceStarStep (makeStar 1) 2e10 0).ended = true ∧
    (advanceStarStep (makeStar 1) 2e10 0).justEnded = true ∧
    (advanceStarStep (makeStar 1) 2e10 0).collapseAnimating = true ∧
    (advanceStarStep (makeStar 1) 2e10 0).collapseProgress = 0 ∧
    (advanceStarStep (drawStarFlagPass (advanceStarStep (makeStar 1) 2e10 0)) 1 1).age
      = (makeStar 1).tTotal ∧
    (advanceStarStep (drawStarFlagPass (advanceStarStep (makeStar 1) 2e10 0)) 1 1).justEnded
      = false :=
  advance_end_of_life (makeStar 1) 2e10 0 1 1 rfl
    (by rw [makeStar_one_tTotal, show (makeStar 1).age = 0 from rfl]; norm_num)

/-- Claim C6: for a live star the displayed stage is Protostar below
tProtostar, Main Sequence from tProtostar up to tProtostar plus tMS, and in
the remaining pre-end window Supergiant when the initial mass is at least
eight and Giant otherwise (the branch reads the initial mass, not the
current one); for an ended star the stage is the star's fate. Stated under
the physical side condition that tMS is nonnegative, which holds for every
star the program constructs. -/
theorem stage_display (star : Star) (hMS : 0 ≤ star.tMS) :
    (star.ended = true → stageForStar star = star.fate) ∧
    (star.ended = false → star.age < star.tProtostar → stageForStar star = "Protostar") ∧
    (star.ended = false → star.tProtostar ≤ star.age →
      star.age < star.tProtostar + star.tMS → stageForStar star = "Main Sequence") ∧
    (star.ended = false → star.tProtostar + star.tMS ≤ star.age → star.age < star.tTotal →
      8 ≤ star.massInitial → stageForStar star = "Supergiant") ∧
    (star.ended = false → star.tProtostar + star.tMS ≤ star.age → star.age < star.tTotal →
      star.massInitial < 8 → stageForStar star = "Giant") := by
  refine ⟨?_, ?_, ?_, ?_, ?_⟩
  · intro he
    unfold stageForStar
    rw [he]
    simp
  · intro he h
    unfold stageForStar
    rw [he]
    simp [h]
  · intro he ha hb
    have hna : ¬ star.age < star.tProtostar := not_lt.mpr ha
    unfold stageForStar
    rw [he]
    simp [hna, hb]
  · intro he hab hc hge
    have hna : ¬ star.age < star.tProtostar := not_lt.mpr (by linarith)
    have hnb : ¬ star.age < star.tProtostar + star.tMS := not_lt.mpr hab
    unfold stageForStar
    rw [he]
    simp [hna, hnb, hc, hge]
  · intro he hab hc hlt
    have hna : ¬ star.age < star.tProtostar := not_lt.mpr (by linarith)
    have hnb : ¬ star.age < star.tProtostar + star.tMS := not_lt.mpr hab
    have hnlt : ¬ star.massInitial ≥ 8 := not_le.mpr hlt
    unfold stageForStar
    rw [he]
    simp [hna, hnb, hc, hnlt]

/-- Witness for C6: a fresh solar-mass star displays as a protostar. -/
theorem stage_display_witness : stageForStar (makeStar 1) = "Protostar" := by
  have h := (stage_display (makeStar 1) (by rw [makeStar_one_tMS]; norm_num)).2.1
  exact h rfl (by rw [show (makeStar 1).age = 0 from rfl, makeStar_one_tProtostar]; norm_num)

/-- Claim C3: every nonzero mass transfer recomputes both stars' fates from
their new current masses and recomputes all four phase durations of both
stars from the new masses, while leaving both ages and both initial masses
untouched. -/
theorem transfer_recompute (donor accretor : Star) (dm : ℝ)
    (h : 0 < min dm (donor.massCurrent - 0.1)) :
    (transferMass donor accretor dm).1.massCurrent
      = donor.massCurrent - min dm (donor.massCurrent - 0.1) ∧
    (transferMass donor accretor dm).2.massCurrent
      = accretor.massCurrent + min dm (donor.massCurrent - 0.1) ∧
    (transferMass donor accretor dm).1.fate
      = fateForMass (transferMass donor accretor dm).1.massCurrent ∧
    (transferMass donor accretor dm).2.fate
      = fateForMass (transferMass donor accretor dm).2.massCurrent ∧
    (transferMass donor accretor dm).1.tMS
      = msLifetimeYears (transferMass donor accretor dm).1.massCurrent ∧
    (transferMass donor accretor dm).1.tProtostar
      = (transferMass donor accretor dm).1.tMS * 0.01 ∧
    (transferMass donor accretor dm).1.tGiant
      = (transferMass donor accretor dm).1.tMS * 0.1 ∧
    (transferMass donor accretor dm).1.tTotal
      = (transferMass donor accretor dm).1.tProtostar + (transferMass donor accretor dm).1.tMS
        + (transferMass donor accretor dm).1.tGiant ∧
    (transferMass donor accretor dm).2.tMS
      = msLifetimeYears (transferMass donor accretor dm).2.massCurrent ∧
    (transferMass donor accretor dm).2.tProtostar
      = (transferMass donor accretor dm).2.tMS * 0.01 ∧
    (transferMass donor accretor dm).2.tGiant
      = (transferMass donor accretor dm).2.tMS * 0.1 ∧
    (transferMass donor accretor dm).2.tTotal
      = (transferMass donor accretor dm).2.tProtostar + (transferMass donor accretor dm).2.tMS
        + (transferMass donor accretor dm).2.tGiant ∧
    (transferMass donor accretor dm).1.age = donor.age ∧
    (transferMass donor accretor dm).2.age = accretor.age ∧
    (transferMass donor accretor dm).1.massInitial = donor.massInitial ∧
    (transferMass donor accretor dm).2.massInitial = accretor.massInitial := by
  have hnot : ¬ min dm (donor.massCurrent - 0.1) ≤ 0 := not_le.mpr h
  refine ⟨?_, ?_, ?_, ?_, ?_, ?_, ?_, ?_, ?_, ?_, ?_, ?_, ?_, ?_, ?_, ?_⟩ <;>
    simp [transferMass, resetStarTimes, hnot]

/-- Witness for C3: transferring half a solar mass from a solar-mass star. -/
theorem transfer_recompute_witness :
    (transferMass (makeStar 1) smallStar 0.5).1.massCurrent
      = (makeStar 1).massCurrent - min 0.5 ((makeStar 1).massCurrent - 0.1) ∧
    (transferMass (makeStar 1) smallStar 0.5).2.massCurrent
      = smallStar.massCurrent + min 0.5 ((makeStar 1).massCurrent - 0.1) ∧
    (transferMass (makeStar 1) smallStar 0.5).1.age = (makeStar 1).age ∧
    (transferMass (makeStar 1) smallStar 0.5).2.age = smallStar.age := by
  have h : 0 < min 0.5 ((makeStar 1).massCurrent - 0.1) := by
    rw [makeStar_one_massCurrent]
    norm_num
  obtain ⟨a, b, _, _, _, _, _, _, _, _, _, _, c, d, _, _⟩ :=
    transfer_recompute (makeStar 1) smallStar 0.5 h
  exact ⟨a, b, c, d⟩

theorem setSim_star1_fields (st : SimState) (a : ℝ) :
    (setSimulationAge st a).star1.age = clamp a 0 st.star1.tTotal ∧
    (setSimulationAge st a).star1.tTotal = st.star1.tTotal ∧
    (setSimulationAge st a).star1.ended = st.star1.ended := by
  simp only [setSimulationAge]
  split_ifs <;> simp

/-- Counterexample to claim C7: scrubbing the initial single-star state to
twenty billion years clamps the primary's age to exactly tTotal while its
ended flag stays false, because setSimulationAge never performs the
end-of-life transition. -/
theorem setAge_reaches_total_without_ended :
    (setSimulationAge initState 2e10).star1.age
      = (setSimulationAge initState 2e10).star1.tTotal ∧
    (setSimulationAge initState 2e10).star1.ended = false := by
  obtain ⟨ha, ht, he⟩ := setSim_star1_fields initState 2e10
  constructor
  · rw [ha, ht, show initState.star1 = makeStar 1 from rfl, makeStar_one_tTotal]
    exact clamp_eq_hi (by norm_num) (by norm_num)
  · rw [he]
    rfl

/-- Amended claim C7: construction and time advance do maintain the
invariant: a star fresh from makeStar, and any star coming out of an
advance step, is either ended or strictly younger than its total lifetime;
the invariant is not maintained by setSimulationAge (see the
counterexample), which can park a live star exactly at tTotal. -/
theorem age_total_invariant_make_advance (m : ℝ) (star : Star) (dt dtMs : ℝ) :
    ((makeStar m).ended = true ∨ (makeStar m).age < (makeStar m).tTotal) ∧
    ((advanceStarStep star dt dtMs).ended = true ∨
      (advanceStarStep star dt dtMs).age < (advanceStarStep star dt dtMs).tTotal) := by
  constructor
  · right
    have hmass : (0 : ℝ) < clamp m 0.1 50 := lt_of_lt_of_le (by norm_num) (le_clamp _ _ _)
    have h1 : (0 : ℝ) < msLifetimeYears (clamp m 0.1 50) := by
      unfold msLifetimeYears GYR YEAR
      have := Real.rpow_pos_of_pos hmass (-2.5 : ℝ)
      nlinarith
    simp only [makeStar]
    linarith
  · simp only [advanceStarStep]
    split_ifs <;> simp_all

theorem rocheLobe_eq (md ma a : ℝ) :
    rocheLobeRadiusAU md ma a =
      0.49 * (rocheQ md ma ^ ((1 : ℝ) / 3) * rocheQ md ma ^ ((1 : ℝ) / 3)) /
        (0.6 * (rocheQ md ma ^ ((1 : ℝ) / 3) * rocheQ md ma ^ ((1 : ℝ) / 3)) +
          Real.log (1 + rocheQ md ma ^ ((1 : ℝ) / 3))) * a := rfl

/-- Claim C10: for positive donor and accretor masses and a separation in
the valid range, the Eggleton Roche-lobe radius is strictly positive and
strictly below the separation, since the clamped mass ratio keeps the
logarithm term positive and the fraction below 0.49 over 0.6. -/
theorem rocheLobe_bounds (md ma a : ℝ) (_h1 : 0 < md) (_h2 : 0 < ma)
    (h3 : 0.01 ≤ a) (_h4 : a ≤ 10) :
    0 < rocheLobeRadiusAU md ma a ∧ rocheLobeRadiusAU md ma a < a := by
  have hq0 : (0 : ℝ) < rocheQ md ma := lt_of_lt_of_le (by norm_num) (le_clamp _ _ _)
  have hq13 : (0 : ℝ) < rocheQ md ma ^ ((1 : ℝ) / 3) := Real.rpow_pos_of_pos hq0 _
  have hlog : (0 : ℝ) < Real.log (1 + rocheQ md ma ^ ((1 : ℝ) / 3)) :=
    Real.log_pos (by linarith)
  have hq23 : (0 : ℝ) < rocheQ md ma ^ ((1 : ℝ) / 3) * rocheQ md ma ^ ((1 : ℝ) / 3) :=
    mul_pos hq13 hq13
  have hden : (0 : ℝ) <
      0.6 * (rocheQ md ma ^ ((1 : ℝ) / 3) * rocheQ md ma ^ ((1 : ℝ) / 3)) +
        Real.log (1 + rocheQ md ma ^ ((1 : ℝ) / 3)) := by nlinarith
  have hfrac0 : (0 : ℝ) <
      0.49 * (rocheQ md ma ^ ((1 : ℝ) / 3) * rocheQ md ma ^ ((1 : ℝ) / 3)) /
        (0.6 * (rocheQ md ma ^ ((1 : ℝ) / 3) * rocheQ md ma ^ ((1 : ℝ) / 3)) +
          Real.log (1 + rocheQ md ma ^ ((1 : ℝ) / 3))) :=
    div_pos (by nlinarith) hden
  have hfrac1 :
      0.49 * (rocheQ md ma ^ ((1 : ℝ) / 3) * rocheQ md ma ^ ((1 : ℝ) / 3)) /
        (0.6 * (rocheQ md ma ^ ((1 : ℝ) / 3) * rocheQ md ma ^ ((1 : ℝ) / 3)) +
          Real.log (1 + rocheQ md ma ^ ((1 : ℝ) / 3))) < 1 := by
    rw [div_lt_one hden]
    nlinarith
  rw [rocheLobe_eq]
  have ha : (0 : ℝ) < a := by linarith
  exact ⟨mul_pos hfrac0 ha, mul_lt_of_lt_one_left ha hfrac1⟩

/-- Witness for C10 at two solar-mass stars and one astronomical unit. -/
theorem rocheLobe_bounds_witness :
    0 < rocheLobeRadiusAU 1 1 1 ∧ rocheLobeRadiusAU 1 1 1 < 1 :=
  rocheLobe_bounds 1 1 1 (by norm_num) (by norm_num) (by norm_num) (by norm_num)

theorem transferMass_fst_massCurrent (donor accretor : Star) (dm : ℝ)
    (h : ¬ min dm (donor.massCurrent - 0.1) ≤ 0) :
    (transferMass donor accretor dm).1.massCurrent
      = donor.massCurrent - min dm (donor.massCurrent - 0.1) := by
  simp [transferMass, resetStarTimes, h]

theorem transferMass_snd_massCurrent (donor accretor : Star) (dm : ℝ)
    (h : ¬ min dm (donor.massCurrent - 0.1) ≤ 0) :
    (transferMass donor accretor dm).2.massCurrent
      = accretor.massCurrent + min dm (donor.massCurrent - 0.1) := by
  simp [transferMass, resetStarTimes, h]

theorem transferMass_eq_of_nonpos (donor accretor : Star) (dm : ℝ)
    (h : min dm (donor.massCurrent - 0.1) ≤ 0) :
    transferMass donor accretor dm = (donor, accretor) := by
  simp [transferMass, h]

/-- Claim C1: while in binary mode, if either star has ended nothing is
transferred; with both alive, when exactly one star overfills its Roche
lobe it is the donor and loses (and the other gains) the amount
transferRatePerYear times dtYears, capped at its current mass minus 0.1 so
the donor stays at or above 0.1; when the capped amount is nonpositive, or
both stars overfill, or neither does, the state is unchanged. -/
theorem mass_transfer_cases (st : SimState) (dt : ℝ) (hbin : st.binary = true) :
    ((st.star1.ended = true ∨ st.star2.ended = true) → doMassTransfer st dt = st) ∧
    (st.star1.ended = false → st.star2.ended = false →
      ((overfillP st.star1 st.star2 st.separationAU →
          ¬ overfillP st.star2 st.star1 st.separationAU →
          ((0 < min (st.transferRatePerYear * dt) (st.star1.massCurrent - 0.1) →
            (doMassTransfer st dt).star1.massCurrent
              = st.star1.massCurrent
                - min (st.transferRatePerYear * dt) (st.star1.massCurrent - 0.1) ∧
            (doMassTransfer st dt).star2.massCurrent
              = st.star2.massCurrent
                + min (st.transferRatePerYear * dt) (st.star1.massCurrent - 0.1) ∧
            0.1 ≤ (doMassTransfer st dt).star1.massCurrent) ∧
          (min (st.transferRatePerYear * dt) (st.star1.massCurrent - 0.1) ≤ 0 →
            doMassTransfer st dt = st))) ∧
        (overfillP st.star2 st.star1 st.separationAU →
          ¬ overfillP st.star1 st.star2 st.separationAU →
          ((0 < min (st.transferRatePerYear * dt) (st.star2.massCurrent - 0.1) →
            (doMassTransfer st dt).star2.massCurrent
              = st.star2.massCurrent
                - min (st.transferRatePerYear * dt) (st.star2.massCurrent - 0.1) ∧
            (doMassTransfer st dt).star1.massCurrent
              = st.star1.massCurrent
                + min (st.transferRatePerYear * dt) (st.star2.massCurrent - 0.1) ∧
            0.1 ≤ (doMassTransfer st dt).star2.massCurrent) ∧
          (min (st.transferRatePerYear * dt) (st.star2.massCurrent - 0.1) ≤ 0 →
            doMassTransfer st dt = st))) ∧
        (overfillP st.star1 st.star2 st.separationAU →
          overfillP st.star2 st.star1 st.separationAU → doMassTransfer st dt = st) ∧
        (¬ overfillP st.star1 st.star2 st.separationAU →
          ¬ overfillP st.star2 st.star1 st.separationAU → doMassTransfer st dt = st))) := by
  refine ⟨?_, ?_⟩
  · intro he
    unfold doMassTransfer
    rcases he with he | he <;> simp [hbin, he]
  · intro he1 he2
    refine ⟨?_, ?_, ?_, ?_⟩
    · intro ho1 hno2
      constructor
      · intro hpos
        have hne := not_le.mpr hpos
        unfold doMassTransfer
        simp only [hbin, if_true, he1, he2, and_self, ho1, hno2, not_false_iff, if_pos]
        refine ⟨transferMass_fst_massCurrent _ _ _ hne,
          transferMass_snd_massCurrent _ _ _ hne, ?_⟩
        rw [transferMass_fst_massCurrent _ _ _ hne]
        have := min_le_right (st.transferRatePerYear * dt) (st.star1.massCurrent - 0.1)
        linarith
      · intro hle
        unfold doMassTransfer
        simp only [hbin, if_true, he1, he2, and_self, ho1, hno2, not_false_iff, if_pos]
        rw [transferMass_eq_of_nonpos _ _ _ hle, ← hbin]
    · intro ho2 hno1
      constructor
      · intro hpos
        have hne := not_le.mpr hpos
        unfold doMassTransfer
        simp only [hbin, if_true, he1, he2, and_self, ho2, hno1, not_false_iff, if_pos,
          false_and, if_false, and_false]
        refine ⟨transferMass_fst_massCurrent _ _ _ hne,
          transferMass_snd_massCurrent _ _ _ hne, ?_⟩
        rw [transferMass_fst_massCurrent _ _ _ hne]
        have := min_le_right (st.transferRatePerYear * dt) (st.star2.massCurrent - 0.1)
        linarith
      · intro hle
        unfold doMassTransfer
        simp only [hbin, if_true, he1, he2, and_self, ho2, hno1, not_false_iff, if_pos,
          false_and, if_false, and_false]
        rw [transferMass_eq_of_nonpos _ _ _ hle, ← hbin]
    · intro ho1 ho2
      unfold doMassTransfer
      simp [hbin, he1, he2, ho1, ho2]
    · intro hno1 hno2
      unfold doMassTransfer
      simp [hbin, he1, he2, hno1, hno2]

theorem rpow_thousand_third : (1000 : ℝ) ^ ((1 : ℝ) / 3) = 10 := by
  have hb : (1000 : ℝ) = 10 ^ ((3 : ℕ) : ℝ) := by
    rw [Real.rpow_natCast]
    norm_num
  rw [hb, ← Real.rpow_mul (by norm_num : (0 : ℝ) ≤ 10),
    show ((3 : ℕ) : ℝ) * ((1 : ℝ) / 3) = 1 by push_cast; ring, Real.rpow_one]

theorem rpow_thousandth_third : (1e-3 : ℝ) ^ ((1 : ℝ) / 3) = 1 / 10 := by
  have hb : (1e-3 : ℝ) = (1 / 10 : ℝ) ^ ((3 : ℕ) : ℝ) := by
    rw [Real.rpow_natCast]
    norm_num
  rw [hb, ← Real.rpow_mul (by norm_num : (0 : ℝ) ≤ 1 / 10),
    show ((3 : ℕ) : ℝ) * ((1 : ℝ) / 3) = 1 by push_cast; ring, Real.rpow_one]

theorem radiusRsun_million : radiusRsun 1000000 = 2000 := by
  have hval : (1000000 : ℝ) ^ (0.8 : ℝ) = 10 ^ (4.8 : ℝ) := by
    rw [show (1000000 : ℝ) = 10 ^ ((6 : ℕ) : ℝ) by rw [Real.rpow_natCast]; norm_num,
      ← Real.rpow_mul (by norm_num : (0 : ℝ) ≤ 10)]
    norm_num
  have hlow : (10 : ℝ) ^ ((4 : ℝ)) ≤ 10 ^ (4.8 : ℝ) :=
    Real.rpow_le_rpow_of_exponent_le (by norm_num) (by norm_num)
  have hfour : (10 : ℝ) ^ ((4 : ℝ)) = 10000 := by
    rw [show ((4 : ℝ)) = ((4 : ℕ) : ℝ) by norm_num, Real.rpow_natCast]
    norm_num
  have h48 : (2000 : ℝ) ≤ (1000000 : ℝ) ^ (0.8 : ℝ) := by
    rw [hval]
    linarith
  unfold radiusRsun
  exact clamp_eq_hi h48 (by norm_num)

theorem radiusRsun_one : radiusRsun 1 = 1 := by
  unfold radiusRsun
  rw [Real.one_rpow]
  exact clamp_eq_of_mem (by norm_num) (by norm_num)

theorem rocheQ_big : rocheQ 1000000 1 = 1000 := by
  unfold rocheQ
  rw [show (1000000 : ℝ) / 1 = 1000000 by norm_num,
    clamp_eq_hi (by norm_num : (1e3 : ℝ) ≤ 1000000) (by norm_num : (1e-3 : ℝ) ≤ 1e3)]
  norm_num

theorem rocheQ_small : rocheQ 1 1000000 = 1e-3 := by
  unfold rocheQ clamp
  rw [show (1 : ℝ) / 1000000 = 1e-6 by norm_num,
    min_eq_right (by norm_num : (1e-6 : ℝ) ≤ 1e3),
    max_eq_left (by norm_num : (1e-6 : ℝ) ≤ 1e-3)]

theorem rocheLobe_big_small :
    rocheLobeRadiusAU 1000000 1 1 = 49 / (60 + Real.log 11) := by
  rw [rocheLobe_eq, rocheQ_big, rpow_thousand_third]
  norm_num

theorem rocheLobe_small_big :
    rocheLobeRadiusAU 1 1000000 1 = 0.0049 / (0.006 + Real.log (11 / 10)) := by
  rw [rocheLobe_eq, rocheQ_small, rpow_thousandth_third]
  norm_num

theorem bigStar_overfills : overfillP bigStar smallStar 1 := by
  unfold overfillP
  have h1 : bigStar.massCurrent = 1000000 := rfl
  have h2 : smallStar.massCurrent = 1 := rfl
  rw [h1, h2, radiusRsun_million, rocheLobe_big_small]
  unfold stellarRadiusAU
  have hlog : (0 : ℝ) < Real.log 11 := Real.log_pos (by norm_num)
  have ha : (49 : ℝ) / (60 + Real.log 11) < 49 / 60 :=
    div_lt_div_of_pos_left (by norm_num) (by norm_num) (by linarith)
  have hb : (49 : ℝ) / 60 < 2000 / 215 := by norm_num
  linarith

theorem smallStar_not_overfill : ¬ overfillP smallStar bigStar 1 := by
  unfold overfillP
  rw [gt_iff_lt, not_lt]
  have h1 : smallStar.massCurrent = 1 := rfl
  have h2 : bigStar.massCurrent = 1000000 := rfl
  rw [h1, h2, radiusRsun_one, rocheLobe_small_big]
  unfold stellarRadiusAU
  have hlogpos : (0 : ℝ) < Real.log (11 / 10) := Real.log_pos (by norm_num)
  have hlogle : Real.log (11 / 10) ≤ 1 / 10 := by
    have := Real.log_le_sub_one_of_pos (show (0 : ℝ) < 11 / 10 by norm_num)
    linarith
  rw [div_le_div_iff₀ (by norm_num) (by linarith)]
  linarith

/-- Witness for C1: in a binary state where only the first star overfills
its Roche lobe, one step at unit rate moves exactly one solar mass. -/
theorem mass_transfer_cases_witness :
    (doMassTransfer rlofState 1).star1.massCurrent = 999999 ∧
    (doMassTransfer rlofState 1).star2.massCurrent = 2 := by
  have hmain := mass_transfer_cases rlofState 1 rfl
  have hcase := (hmain.2 rfl rfl).1 bigStar_overfills smallStar_not_overfill
  have hmin : min ((1 : ℝ) * 1) ((1000000 : ℝ) - 0.1) = 1 := by
    rw [min_eq_left (by norm_num)]
    norm_num
  have hpos : 0 < min (rlofState.transferRatePerYear * 1) (rlofState.star1.massCurrent - 0.1) := by
    show (0 : ℝ) < min ((1 : ℝ) * 1) ((1000000 : ℝ) - 0.1)
    rw [hmin]
    norm_num
  obtain ⟨e1, e2, _⟩ := hcase.1 hpos
  constructor
  · rw [e1]
    show (1000000 : ℝ) - min ((1 : ℝ) * 1) ((1000000 : ℝ) - 0.1) = 999999
    rw [hmin]
    norm_num
  · rw [e2]
    show (1 : ℝ) + min ((1 : ℝ) * 1) ((1000000 : ℝ) - 0.1) = 2
    rw [hmin]
    norm_num

end

end StellarSim
